import Mathlib

/-!
GraphServer.cpp: the three request handlers of `GraphInferenceServerImpl`

A shallow embedding of `libnd4j/server/GraphServer.cpp`.  The handlers
`RegisterGraph`, `ForgetGraph` and `InferenceRequest` are translated statement by
statement into state-passing functions over `ServerState`.  What the handlers call
but the file does not define (the `GraphHolder` registry, the `Graph` constructor,
`GraphExecutioner::execute`, the generated flatbuffers tables) is either a field of
`Engine` or a definition modelled from the specification and marked as such.
-/

namespace nd4j.graph

/-! ## Data model -/

/-- Modelled from the spec: the type tag of a registry entry ("a small closed set of
supported types").  The handlers instantiate every template with `float`
(lines 33, 36, 67, 70). -/
inductive TypeTag where
  | float
  | double
  deriving DecidableEq, Repr

/-- Root table of a RegisterGraph request: `flat_graph->id()` plus the rest of the
serialized definition, which only the `Graph` constructor reads. -/
structure FlatGraph (D : Type) where
  id : Int
  definition : D

/-- Root table of a ForgetGraph request: `request->id()`. -/
structure FlatDropRequest where
  id : Int

/-- Root table of an InferenceRequest: `request->id()`. -/
structure FlatInferenceRequest where
  id : Int

/-- Modelled from the spec: the generated tables `FlatResponse` and `FlatResult`
(result_generated.h is not part of the sources).  A `FlatResponse` carries a status
code; a `FlatResult` carries the identifier and the payload the execution engine
produced, which is absent when the table is created from the identifier alone. -/
inductive Table (P : Type) where
  | FlatResponse (status : Int)
  | FlatResult (id : Int) (payload : Option P)

/-- The flatbuffers message builder `mb_`, a member shared by the three handlers:
the tables written since the last release and the root offset marked by `Finish`. -/
structure MessageBuilder (P : Type) where
  buf : List (Table P)
  root : Option Nat

/-- A finished message, as moved out of the builder by `ReleaseMessage`. -/
structure Message (P : Type) where
  buf : List (Table P)
  root : Option Nat

/-- The status a handler returns (`grpc::Status`); the handlers only ever name
`grpc::Status::OK`. -/
inductive Status where
  | OK
  | UNKNOWN
  | NOT_FOUND
  | INTERNAL
  deriving DecidableEq, Repr

/-- Modelled from the spec: the ways the `Graph` constructor can reject a definition
("unsupported operation, inconsistent shapes"). -/
inductive ConstructionError where
  | unsupportedOperation
  | inconsistentShapes
  deriving DecidableEq, Repr

/-- Modelled from the spec: what `execute` reports, `Payload | ExecutionError`. -/
inductive Execution (P : Type) where
  | payload (p : P)
  | executionError

/-- The external collaborators of the handlers.  `build` is the constructor
`new Graph<float>(flat_graph)` (line 33), which can only fail by throwing; `clone`
is the copy the registry makes for one execution; `execute` is
`GraphExecutioner<float>::execute` (line 70), applied to whatever `cloneGraph`
returned, a clone or the not-found value. -/
structure Engine (D G C P : Type) where
  build : FlatGraph D → Except ConstructionError G
  clone : G → C
  execute : Option C → Execution P

/-- Modelled from the spec: the registry `GraphHolder` (graph/GraphHolder.h is not
part of the sources), a store of graphs keyed by (identifier, type). -/
structure GraphHolder (G : Type) where
  graphs : List ((Int × TypeTag) × G)

/-- The state the handlers read and write: the `GraphHolder::getInstance()`
singleton, the shared builder `mb_`, the clones that are allocated and not yet
released, and the trace of the calls made to `execute`. -/
structure ServerState (G C P : Type) where
  holder : GraphHolder G
  mb_ : MessageBuilder P
  liveClones : List C
  executions : List (Option C)

/-- How a handler invocation ends: it returns a status and a response message, the
`Graph` constructor throws out of it, or the `assert` on the response fails. -/
inductive Outcome (P : Type) where
  | returned (status : Status) (response_msg : Message P)
  | thrown (e : ConstructionError)
  | assertFailed

variable {D G C P : Type}

/-! ## The flatbuffers builder -/

/-- Write a `FlatResponse` table into the builder and return its offset. -/
def CreateFlatResponse (mb : MessageBuilder P) (status : Int) : MessageBuilder P × Nat :=
  ({ mb with buf := mb.buf ++ [Table.FlatResponse status] }, mb.buf.length)

/-- Write a `FlatResult` table into the builder and return its offset. -/
def CreateFlatResult (mb : MessageBuilder P) (id : Int) (payload : Option P) :
    MessageBuilder P × Nat :=
  ({ mb with buf := mb.buf ++ [Table.FlatResult id payload] }, mb.buf.length)

/-- Mark the table at `offset` as the root of the message: `mb_.Finish(offset)`. -/
def MessageBuilder.Finish (mb : MessageBuilder P) (offset : Nat) : MessageBuilder P :=
  { mb with root := some offset }

/-- Move the finished buffer out of the builder, which is left empty:
`mb_.ReleaseMessage<T>()`. -/
def MessageBuilder.ReleaseMessage (mb : MessageBuilder P) : MessageBuilder P × Message P :=
  ({ buf := [], root := none }, { buf := mb.buf, root := mb.root })

/-- The root table of a message: `msg->GetRoot()`. -/
def Message.GetRoot (m : Message P) : Option (Table P) :=
  m.root.bind fun offset => m.buf[offset]?

/-- The check `response_msg->Verify()`: the message has a root table. -/
def Message.Verify (m : Message P) : Bool :=
  m.GetRoot.isSome

/-! ## The registry -/

/-- Modelled from the spec: the lookup behind `cloneForExecution`, the graph stored
under (identifier, type), if any. -/
def GraphHolder.lookup (h : GraphHolder G) (tag : TypeTag) (graphId : Int) : Option G :=
  (h.graphs.find? fun e => decide (e.1 = (graphId, tag))).map Prod.snd

/-- Modelled from the spec: `registerGraph<T>(id, graph)` inserts the graph under the
identifier; an entry that already exists under it is replaced. -/
def GraphHolder.registerGraph (h : GraphHolder G) (tag : TypeTag) (graphId : Int) (graph : G) :
    GraphHolder G :=
  ⟨((graphId, tag), graph) :: h.graphs.filter fun e => decide (e.1 ≠ (graphId, tag))⟩

/-- Modelled from the spec: `dropGraphAny(id)` removes the entry for the identifier
if present, whatever its type ("any datatype", line 51); removing a non-existent
identifier is a no-op. -/
def GraphHolder.dropGraphAny (h : GraphHolder G) (graphId : Int) : GraphHolder G :=
  ⟨h.graphs.filter fun e => decide (e.1.1 ≠ graphId)⟩

/-- Modelled from the spec: `cloneGraph<T>(id)` is `cloneForExecution`, returning
`ExecutionClone | NotFound`: a fresh clone of the stored graph, or the not-found
value `none` when the registry has no entry. -/
def GraphHolder.cloneGraph (E : Engine D G C P) (h : GraphHolder G) (tag : TypeTag)
    (graphId : Int) : Option C :=
  (h.lookup tag graphId).map E.clone

/-! ## The handlers -/

/-- The handler `GraphInferenceServerImpl::RegisterGraph` (lines 29-45). -/
def RegisterGraph (E : Engine D G C P) (s : ServerState G C P) (flat_graph : FlatGraph D) :
    ServerState G C P × Outcome P :=
  -- building our graph
  match E.build flat_graph with
  | .error e => (s, .thrown e)
  | .ok graph =>
    -- single data type for now
    let holder := s.holder.registerGraph .float flat_graph.id graph
    -- sending out OK response
    let created := CreateFlatResponse s.mb_ 0
    let finished := created.1.Finish created.2
    let released := finished.ReleaseMessage
    let s1 : ServerState G C P := { s with holder := holder, mb_ := released.1 }
    if released.2.Verify then (s1, .returned .OK released.2) else (s1, .assertFailed)

/-- The handler `GraphInferenceServerImpl::ForgetGraph` (lines 47-61). -/
def ForgetGraph (s : ServerState G C P) (request : FlatDropRequest) :
    ServerState G C P × Outcome P :=
  -- dropping out graph (any datatype)
  let holder := s.holder.dropGraphAny request.id
  -- sending out OK response
  let created := CreateFlatResponse s.mb_ 0
  let finished := created.1.Finish created.2
  let released := finished.ReleaseMessage
  let s1 : ServerState G C P := { s with holder := holder, mb_ := released.1 }
  if released.2.Verify then (s1, .returned .OK released.2) else (s1, .assertFailed)

/-- The handler `GraphInferenceServerImpl::InferenceRequest` (lines 63-80).  The
clone returned by `cloneGraph` joins the live clones and no statement of the handler
releases it; the value of `execute` is dropped; the result table is created from
the builder and the identifier alone. -/
def InferenceRequest (E : Engine D G C P) (s : ServerState G C P)
    (request : FlatInferenceRequest) : ServerState G C P × Outcome P :=
  -- trying to get graph by id
  let graph := s.holder.cloneGraph E .float request.id
  let liveClones := graph.toList ++ s.liveClones
  -- the call of line 70; its value is not bound to anything
  let _executed := E.execute graph
  let executions := s.executions ++ [graph]
  -- provide results here
  let created := CreateFlatResult s.mb_ request.id none
  let finished := created.1.Finish created.2
  let released := finished.ReleaseMessage
  let s1 : ServerState G C P :=
    { s with mb_ := released.1, liveClones := liveClones, executions := executions }
  if released.2.Verify then (s1, .returned .OK released.2) else (s1, .assertFailed)

/-! ## Concrete inputs used to evaluate the handlers -/

/-- An engine over numeric codes: definition `0` is rejected by the constructor, a
clone of graph `g` is `g + 100`, and executing clone `c` yields payload `2 * c`
unless `c` is `113`, on which execution fails, as it does on the not-found value. -/
def sampleEngine : Engine Nat Nat Nat Nat where
  build := fun flat_graph =>
    if flat_graph.definition = 0 then .error .unsupportedOperation
    else .ok flat_graph.definition
  clone := fun g => g + 100
  execute := fun handle =>
    match handle with
    | some c => if c = 113 then .executionError else .payload (2 * c)
    | none => .executionError

/-- The state of a freshly started server: nothing registered, an empty builder, no
live clone, no execution yet. -/
def freshState : ServerState Nat Nat Nat :=
  { holder := ⟨[]⟩, mb_ := { buf := [], root := none }, liveClones := [], executions := [] }

/-- A state in which identifier 7 holds graph 5 and identifier 9 holds graph 13,
whose clone fails to execute under `sampleEngine`. -/
def busyState : ServerState Nat Nat Nat :=
  { holder := ⟨[((7, .float), 5), ((9, .float), 13)]⟩, mb_ := { buf := [], root := none },
    liveClones := [], executions := [] }

/-! ## Lemmas on the builder and the registry -/

theorem getRoot_appended (buf : List (Table P)) (t : Table P) :
    Message.GetRoot ({ buf := buf ++ [t], root := some buf.length } : Message P) = some t := by
  simp [Message.GetRoot]

theorem RegisterGraph_ok (E : Engine D G C P) (s : ServerState G C P) (flat_graph : FlatGraph D)
    (graph : G) (h : E.build flat_graph = .ok graph) :
    RegisterGraph E s flat_graph =
      ({ s with holder := s.holder.registerGraph .float flat_graph.id graph,
                mb_ := { buf := [], root := none } },
       .returned .OK { buf := s.mb_.buf ++ [Table.FlatResponse 0],
                       root := some s.mb_.buf.length }) := by
  simp [RegisterGraph, h, CreateFlatResponse, MessageBuilder.Finish,
    MessageBuilder.ReleaseMessage, Message.Verify, Message.GetRoot]

theorem RegisterGraph_error (E : Engine D G C P) (s : ServerState G C P)
    (flat_graph : FlatGraph D) (e : ConstructionError) (h : E.build flat_graph = .error e) :
    RegisterGraph E s flat_graph = (s, .thrown e) := by
  simp [RegisterGraph, h]

theorem ForgetGraph_eq (s : ServerState G C P) (request : FlatDropRequest) :
    ForgetGraph s request =
      ({ s with holder := s.holder.dropGraphAny request.id,
                mb_ := { buf := [], root := none } },
       .returned .OK { buf := s.mb_.buf ++ [Table.FlatResponse 0],
                       root := some s.mb_.buf.length }) := by
  simp [ForgetGraph, CreateFlatResponse, MessageBuilder.Finish,
    MessageBuilder.ReleaseMessage, Message.Verify, Message.GetRoot]

theorem InferenceRequest_eq (E : Engine D G C P) (s : ServerState G C P)
    (request : FlatInferenceRequest) :
    InferenceRequest E s request =
      ({ s with mb_ := { buf := [], root := none },
                liveClones := (s.holder.cloneGraph E .float request.id).toList ++ s.liveClones,
                executions := s.executions ++ [s.holder.cloneGraph E .float request.id] },
       .returned .OK { buf := s.mb_.buf ++ [Table.FlatResult request.id none],
                       root := some s.mb_.buf.length }) := by
  simp [InferenceRequest, CreateFlatResult, MessageBuilder.Finish,
    MessageBuilder.ReleaseMessage, Message.Verify, Message.GetRoot]

theorem lookup_registerGraph_same (h : GraphHolder G) (tag : TypeTag) (graphId : Int) (graph : G) :
    (h.registerGraph tag graphId graph).lookup tag graphId = some graph := by
  simp [GraphHolder.lookup, GraphHolder.registerGraph]

theorem find_filter_of_imp {α : Type} (p q : α → Bool) (l : List α)
    (himp : ∀ x, p x = true → q x = true) :
    (l.filter q).find? p = l.find? p := by
  induction l with
  | nil => rfl
  | cons x rest ih =>
    by_cases hq : q x = true
    · rw [List.filter_cons_of_pos hq]
      by_cases hp : p x = true
      · rw [List.find?_cons_of_pos _ hp, List.find?_cons_of_pos _ hp]
      · rw [List.find?_cons_of_neg _ hp, List.find?_cons_of_neg _ hp, ih]
    · rw [List.filter_cons_of_neg hq]
      have hp : ¬ p x = true := fun hp => hq (himp x hp)
      rw [List.find?_cons_of_neg _ hp, ih]

theorem lookup_registerGraph_other (h : GraphHolder G) (tag tag' : TypeTag)
    (graphId graphId' : Int) (graph : G) (hne : (graphId', tag') ≠ (graphId, tag)) :
    (h.registerGraph tag graphId graph).lookup tag' graphId' = h.lookup tag' graphId' := by
  have hne' : ¬ ((graphId, tag) = (graphId', tag')) := fun h => hne h.symm
  simp only [GraphHolder.lookup, GraphHolder.registerGraph, List.find?_cons, hne',
    decide_False]
  congr 1
  apply find_filter_of_imp
  intro e he
  have h1 : e.1 = (graphId', tag') := of_decide_eq_true he
  exact decide_eq_true (by rw [h1]; exact hne)

theorem lookup_dropGraphAny_same (h : GraphHolder G) (tag : TypeTag) (graphId : Int) :
    (h.dropGraphAny graphId).lookup tag graphId = none := by
  simp only [GraphHolder.lookup, GraphHolder.dropGraphAny, Option.map_eq_none',
    List.find?_eq_none]
  intro e he
  have := (List.mem_filter.mp he).2
  simp only [ne_eq, decide_not, Bool.not_eq_eq_eq_not, Bool.not_true,
    decide_eq_false_iff_not] at this
  simp only [decide_eq_true_eq]
  intro heq
  exact this (by rw [heq])

theorem lookup_dropGraphAny_other (h : GraphHolder G) (tag : TypeTag) (graphId graphId' : Int)
    (hne : graphId' ≠ graphId) :
    (h.dropGraphAny graphId).lookup tag graphId' = h.lookup tag graphId' := by
  simp only [GraphHolder.lookup, GraphHolder.dropGraphAny]
  congr 1
  apply find_filter_of_imp
  intro e he
  have h1 : e.1 = (graphId', tag) := of_decide_eq_true he
  exact decide_eq_true (by rw [h1]; exact hne)

theorem dropGraphAny_idem (h : GraphHolder G) (graphId : Int) :
    (h.dropGraphAny graphId).dropGraphAny graphId = h.dropGraphAny graphId := by
  simp [GraphHolder.dropGraphAny]

theorem no_entry_of_lookup_none (h : GraphHolder G) (graphId : Int)
    (hnone : ∀ tag, h.lookup tag graphId = none) :
    ∀ e ∈ h.graphs, e.1.1 ≠ graphId := by
  intro e he heq
  have := hnone e.1.2
  simp only [GraphHolder.lookup, Option.map_eq_none', List.find?_eq_none] at this
  have h2 := this e he
  simp only [decide_eq_true_eq] at h2
  exact h2 (by rw [← heq])

theorem dropGraphAny_absent (h : GraphHolder G) (graphId : Int)
    (hnone : ∀ tag, h.lookup tag graphId = none) :
    h.dropGraphAny graphId = h := by
  have hall := no_entry_of_lookup_none h graphId hnone
  cases h with
  | mk graphs =>
    simp only [GraphHolder.dropGraphAny, GraphHolder.mk.injEq, List.filter_eq_self]
    intro e he
    simpa using hall e he

/-! ## The claims -/

/-- C1, evaluated on the code at a failing input: with nothing registered under
identifier 7, the InferenceRequest handler does not fail with GraphNotFound; it
returns the status OK together with a result table for 7 whose payload is absent. -/
theorem InferenceRequest_absent_returns_OK :
    freshState.holder.lookup .float 7 = none ∧
    freshState.holder.lookup .double 7 = none ∧
    freshState.holder.cloneGraph sampleEngine .float 7 = none ∧
    (InferenceRequest sampleEngine freshState ⟨7⟩).2 =
      .returned .OK { buf := [Table.FlatResult 7 none], root := some 0 } := by
  refine ⟨rfl, rfl, rfl, ?_⟩
  rw [InferenceRequest_eq]
  rfl

/-- C2, evaluated on the code at a failing input: identifier 9 is registered and
`execute` reports a failure on its clone; the handler calls `execute` exactly once,
and then returns the status OK with a result table for 9 instead of the failure. -/
theorem InferenceRequest_failed_execution_returns_OK :
    busyState.holder.cloneGraph sampleEngine .float 9 = some 113 ∧
    sampleEngine.execute (some 113) = .executionError ∧
    (InferenceRequest sampleEngine busyState ⟨9⟩).1.executions = [some 113] ∧
    (InferenceRequest sampleEngine busyState ⟨9⟩).2 =
      .returned .OK { buf := [Table.FlatResult 9 none], root := some 0 } := by
  refine ⟨rfl, rfl, ?_, ?_⟩
  · rw [InferenceRequest_eq]
    rfl
  · rw [InferenceRequest_eq]
    rfl

/-- C3, evaluated on the code at the round-trip scenario with identifier 7:
RegisterGraph is acknowledged, the following InferenceRequest returns OK and runs
`execute` on the clone of the graph built from the definition, which yields payload
210, but the result table it returns carries identifier 7 with no payload. -/
theorem roundTrip_result_lacks_payload :
    sampleEngine.build ⟨7, 5⟩ = .ok 5 ∧
    sampleEngine.execute (some (sampleEngine.clone 5)) = .payload 210 ∧
    (RegisterGraph sampleEngine freshState ⟨7, 5⟩).2 =
      .returned .OK { buf := [Table.FlatResponse 0], root := some 0 } ∧
    (InferenceRequest sampleEngine
        (RegisterGraph sampleEngine freshState ⟨7, 5⟩).1 ⟨7⟩).1.executions =
      [some (sampleEngine.clone 5)] ∧
    (InferenceRequest sampleEngine (RegisterGraph sampleEngine freshState ⟨7, 5⟩).1 ⟨7⟩).2 =
      .returned .OK { buf := [Table.FlatResult 7 none], root := some 0 } ∧
    Message.GetRoot ({ buf := [Table.FlatResult 7 none], root := some 0 } : Message Nat) ≠
      some (Table.FlatResult 7 (some 210)) := by
  have hreg : RegisterGraph sampleEngine freshState ⟨7, 5⟩ =
      ({ freshState with holder := ⟨[((7, .float), 5)]⟩ },
       .returned .OK { buf := [Table.FlatResponse 0], root := some 0 }) := by
    rw [RegisterGraph_ok sampleEngine freshState ⟨7, 5⟩ 5 rfl]
    rfl
  refine ⟨rfl, rfl, ?_, ?_, ?_, ?_⟩
  · rw [hreg]
  · rw [hreg, InferenceRequest_eq]
    rfl
  · rw [hreg, InferenceRequest_eq]
    rfl
  · intro h
    have h2 := getRoot_appended ([] : List (Table Nat)) (Table.FlatResult 7 none)
    simp only [List.nil_append, List.length_nil] at h2
    rw [h2] at h
    cases h

/-- C4: every InferenceRequest returns a result, and the identifier carried in the
result table is the identifier carried in the request. -/
theorem InferenceRequest_result_id (E : Engine D G C P) (s : ServerState G C P)
    (request : FlatInferenceRequest) :
    ∃ msg payload, (InferenceRequest E s request).2 = .returned .OK msg ∧
      msg.GetRoot = some (Table.FlatResult request.id payload) := by
  rw [InferenceRequest_eq]
  exact ⟨_, none, rfl, getRoot_appended _ _⟩

/-- C5: for every state and identifier, registered or not, ForgetGraph returns the
status OK with an acknowledgement of status code 0, and afterwards the registry has
no entry for the identifier under any type tag, so cloning it finds nothing. -/
theorem ForgetGraph_acknowledges_and_removes (s : ServerState G C P)
    (request : FlatDropRequest) :
    (∃ msg, (ForgetGraph s request).2 = .returned .OK msg ∧
      msg.GetRoot = some (Table.FlatResponse 0)) ∧
    (∀ tag, (ForgetGraph s request).1.holder.lookup tag request.id = none) ∧
    (∀ (E : Engine D G C P) tag,
      (ForgetGraph s request).1.holder.cloneGraph E tag request.id = none) := by
  rw [ForgetGraph_eq]
  refine ⟨⟨_, rfl, getRoot_appended _ _⟩, ?_, ?_⟩
  · intro tag
    exact lookup_dropGraphAny_same s.holder tag request.id
  · intro E tag
    simp only [GraphHolder.cloneGraph]
    rw [lookup_dropGraphAny_same s.holder tag request.id]
    rfl

/-- C6: running ForgetGraph twice in a row leaves the same state as running it once
and answers with the same status and acknowledgement; and when the identifier has no
entry under any type tag, ForgetGraph leaves the registry unchanged. -/
theorem ForgetGraph_idempotent (s : ServerState G C P) (request : FlatDropRequest) :
    (ForgetGraph (ForgetGraph s request).1 request).1 = (ForgetGraph s request).1 ∧
    (∃ once twice, (ForgetGraph s request).2 = .returned .OK once ∧
      (ForgetGraph (ForgetGraph s request).1 request).2 = .returned .OK twice ∧
      twice.GetRoot = once.GetRoot) ∧
    ((∀ tag, s.holder.lookup tag request.id = none) →
      (ForgetGraph s request).1.holder = s.holder) := by
  refine ⟨?_, ?_, ?_⟩
  · rw [ForgetGraph_eq, ForgetGraph_eq]
    simp only [dropGraphAny_idem]
  · rw [ForgetGraph_eq, ForgetGraph_eq]
    refine ⟨_, _, rfl, rfl, ?_⟩
    rw [getRoot_appended, getRoot_appended]
  · intro habsent
    rw [ForgetGraph_eq]
    exact dropGraphAny_absent s.holder request.id habsent

/-- Witness for C6: identifier 3 has no entry in `busyState`, and ForgetGraph on it
leaves the registry as it was. -/
theorem ForgetGraph_idempotent_witness :
    busyState.holder.lookup .float 3 = none ∧ busyState.holder.lookup .double 3 = none ∧
    (ForgetGraph busyState ⟨3⟩).1.holder = busyState.holder :=
  ⟨rfl, rfl, (ForgetGraph_idempotent busyState ⟨3⟩).2.2 (fun tag => by cases tag <;> rfl)⟩

/-- C7: when the constructor builds a graph, RegisterGraph returns OK with an
acknowledgement, the registry maps the identifier to that graph in place of any
prior entry, and every other entry is unchanged; when the constructor fails,
RegisterGraph fails with it and the whole state, the registry included, is exactly
as before the call. -/
theorem RegisterGraph_atomic (E : Engine D G C P) (s : ServerState G C P)
    (flat_graph : FlatGraph D) :
    (∀ graph, E.build flat_graph = .ok graph →
      (∃ msg, (RegisterGraph E s flat_graph).2 = .returned .OK msg ∧
        msg.GetRoot = some (Table.FlatResponse 0)) ∧
      (RegisterGraph E s flat_graph).1.holder.lookup .float flat_graph.id = some graph ∧
      (RegisterGraph E s flat_graph).1.holder.cloneGraph E .float flat_graph.id =
        some (E.clone graph) ∧
      (∀ tag graphId, (graphId, tag) ≠ (flat_graph.id, TypeTag.float) →
        (RegisterGraph E s flat_graph).1.holder.lookup tag graphId =
          s.holder.lookup tag graphId)) ∧
    (∀ e, E.build flat_graph = .error e → RegisterGraph E s flat_graph = (s, .thrown e)) := by
  refine ⟨?_, ?_⟩
  · intro graph hbuild
    rw [RegisterGraph_ok E s flat_graph graph hbuild]
    refine ⟨⟨_, rfl, getRoot_appended _ _⟩, ?_, ?_, ?_⟩
    · exact lookup_registerGraph_same s.holder .float flat_graph.id graph
    · simp only [GraphHolder.cloneGraph]
      rw [lookup_registerGraph_same s.holder .float flat_graph.id graph]
      rfl
    · intro tag graphId hne
      exact lookup_registerGraph_other s.holder .float tag flat_graph.id graphId graph hne
  · intro e hbuild
    exact RegisterGraph_error E s flat_graph e hbuild

/-- Witness for C7: in `busyState`, registering definition 8 under identifier 7
replaces graph 5 by graph 8 and leaves identifier 9 alone, while registering the
rejected definition 0 under identifier 7 throws and changes nothing. -/
theorem RegisterGraph_atomic_witness :
    (sampleEngine.build ⟨7, 8⟩ = .ok 8 ∧
      busyState.holder.lookup .float 7 = some 5 ∧
      (RegisterGraph sampleEngine busyState ⟨7, 8⟩).1.holder.lookup .float 7 = some 8 ∧
      (RegisterGraph sampleEngine busyState ⟨7, 8⟩).1.holder.lookup .float 9 =
        busyState.holder.lookup .float 9) ∧
    (sampleEngine.build ⟨7, 0⟩ = .error .unsupportedOperation ∧
      RegisterGraph sampleEngine busyState ⟨7, 0⟩ = (busyState, .thrown .unsupportedOperation)) :=
  ⟨⟨rfl, rfl,
    ((RegisterGraph_atomic sampleEngine busyState ⟨7, 8⟩).1 8 rfl).2.1,
    ((RegisterGraph_atomic sampleEngine busyState ⟨7, 8⟩).1 8 rfl).2.2.2 .float 9 (by decide)⟩,
   ⟨rfl, (RegisterGraph_atomic sampleEngine busyState ⟨7, 0⟩).2 .unsupportedOperation rfl⟩⟩

/-- C8: for every state and identifier, found or not, executed successfully or not,
InferenceRequest leaves the registry as it was; the one call of `execute` is made on
the value `cloneGraph` returned, never on a stored graph, and nothing is stored
back. -/
theorem InferenceRequest_preserves_registry (E : Engine D G C P) (s : ServerState G C P)
    (request : FlatInferenceRequest) :
    (InferenceRequest E s request).1.holder = s.holder ∧
    (InferenceRequest E s request).1.executions =
      s.executions ++ [s.holder.cloneGraph E .float request.id] := by
  rw [InferenceRequest_eq]
  exact ⟨rfl, rfl⟩

/-- C9, evaluated on the code at a failing input: identifier 7 is registered and no
clone is live; after InferenceRequest returns, the clone it obtained is still
live, so the live clones are not what they were before the call. -/
theorem InferenceRequest_clone_stays_live :
    busyState.holder.lookup .float 7 = some 5 ∧
    busyState.liveClones = [] ∧
    (InferenceRequest sampleEngine busyState ⟨7⟩).2 =
      .returned .OK { buf := [Table.FlatResult 7 none], root := some 0 } ∧
    (InferenceRequest sampleEngine busyState ⟨7⟩).1.liveClones = [105] ∧
    (InferenceRequest sampleEngine busyState ⟨7⟩).1.liveClones ≠ busyState.liveClones := by
  have hlive : (InferenceRequest sampleEngine busyState ⟨7⟩).1.liveClones = [105] := by
    rw [InferenceRequest_eq]
    rfl
  refine ⟨rfl, rfl, ?_, hlive, ?_⟩
  · rw [InferenceRequest_eq]
    rfl
  · rw [hlive]
    intro h
    cases h

end nd4j.graph
